import Mathlib

/-!
Verification of the paging subsystem of the flamingOS kernel
(`src/memory/paging/mod.rs`).  The `entry`, `table` and `memory` sibling
modules are not part of the sources at hand; their data model is modelled
from the specification (spec.md sections 3, 4.1 and 6) and clearly marked
as such.  Fatal assertions of the Rust code are modelled as `Fault` values
in an `Except` result, so the theorems can distinguish the different
assertion sites.
-/

namespace FlamingOS

/-- Modelled from the spec: pages and frames are 4096 bytes (glossary,
`memory` module constant `PAGE_SIZE`). -/
def PAGE_SIZE : Nat := 4096

/-- Number of entries per table (`paging/mod.rs` line 15). -/
def ENTRY_COUNT : Nat := 512

/-- Modelled from the spec: flag bit positions of a hardware page-table
entry (`entry` module missing; spec section 3 "Entry" and the x86-64
layout it names: PRESENT is bit 0, WRITABLE bit 1, the huge/size flag
bit 7). -/
def PRESENT : Nat := 1

/-- Modelled from the spec: the writable flag bit (bit 1). -/
def WRITABLE : Nat := 2

/-- Modelled from the spec: the huge/size flag bit (bit 7). -/
def HUGE_PAGE : Nat := 128

/-- Each fatal assertion or `expect` site of the Rust code becomes a
distinct `Fault` value. -/
inductive Fault where
  | invalidAddress
  | hugeMisaligned
  | alreadyMapped
  | notMapped
  | hugeUnmapUnsupported
  | unwrapNone
  | outOfMemory
deriving DecidableEq, Repr

/-- Modelled from the spec: `Frame { number }`, physical address =
number x 4096 (spec section 3; the `memory` module is missing). -/
structure Frame where
  number : Nat
deriving DecidableEq, Repr

def Frame.start_address (f : Frame) : Nat := f.number * PAGE_SIZE

/-- Struct `Page` from `paging/mod.rs` lines 21-24. -/
structure Page where
  number : Nat
deriving DecidableEq, Repr

/-- Function `Page::containing_address` (lines 29-37): asserts the address is
canonical, else the `invalid address` assertion fires. -/
def Page.containing_address (address : Nat) : Except Fault Page :=
  if address < 0x0000800000000000 ∨ 0xffff800000000000 ≤ address then
    .ok ⟨address / PAGE_SIZE⟩
  else
    .error .invalidAddress

def Page.start_address (p : Page) : Nat := p.number * PAGE_SIZE

def Page.p4_index (p : Page) : Nat := (p.number >>> 27) &&& 0o777

def Page.p3_index (p : Page) : Nat := (p.number >>> 18) &&& 0o777

def Page.p2_index (p : Page) : Nat := (p.number >>> 9) &&& 0o777

def Page.p1_index (p : Page) : Nat := (p.number >>> 0) &&& 0o777

/-- Modelled from the spec: a 64-bit table entry is a frame number plus
flag bits; it is either entirely unused (all bits zero) or PRESENT with a
valid frame number (spec section 3 "Entry"). -/
structure Entry where
  frameNumber : Nat
  flags : Nat
deriving DecidableEq, Repr

/-- Modelled from the spec: the all-zero (unused) entry. -/
def Entry.unused : Entry := ⟨0, 0⟩

/-- Modelled from the spec: `Entry::is_unused` checks the entry is all
zero. -/
def Entry.is_unused (e : Entry) : Bool :=
  e.frameNumber == 0 && e.flags == 0

/-- Modelled from the spec: bitflags `contains` — all bits of `bit` are
set in the entry's flag word. -/
def Entry.contains_flag (e : Entry) (bit : Nat) : Bool :=
  (e.flags &&& bit) == bit

/-- Modelled from the spec: `Entry::pointed_frame` returns the frame when
the PRESENT flag is set. -/
def Entry.pointed_frame (e : Entry) : Option Frame :=
  if e.contains_flag PRESENT then some ⟨e.frameNumber⟩ else none

/-- Modelled from the spec: `Entry::set(frame, flags)`. -/
def Entry.set (frame : Frame) (flags : Nat) : Entry :=
  ⟨frame.number, flags⟩

/-- Modelled from the spec: a table of levels 4..2 is an array of 512
entries; entry `i`, when present and not a huge-page leaf, refers to the
level-below table recorded here as the `children` component (the recursive
self-mapping address arithmetic of the `table` module is abstracted into
this direct child access, spec section 3 "Table<Level>"). -/
structure PTable (α : Type) where
  entries : Nat → Entry
  children : Nat → α

/-- Modelled from the spec: a level-1 table has no next level; its entries
point directly at data frames. -/
structure Table1 where
  entries : Nat → Entry

abbrev Table2 := PTable Table1

abbrev Table3 := PTable Table2

abbrev Table4 := PTable Table3

def Table1.setEntry (t : Table1) (i : Nat) (e : Entry) : Table1 :=
  ⟨fun j => if j = i then e else t.entries j⟩

def PTable.setEntry {α : Type} (t : PTable α) (i : Nat) (e : Entry) : PTable α :=
  ⟨fun j => if j = i then e else t.entries j, t.children⟩

def PTable.setChild {α : Type} (t : PTable α) (i : Nat) (c : α) : PTable α :=
  ⟨t.entries, fun j => if j = i then c else t.children j⟩

/-- Modelled from the spec: `next_table(index)` returns the level-below
table at `index` if the entry is present and not a huge-page leaf;
otherwise none (spec section 4.1). -/
def PTable.next_table {α : Type} (t : PTable α) (i : Nat) : Option α :=
  if (t.entries i).contains_flag PRESENT && !(t.entries i).contains_flag HUGE_PAGE then
    some (t.children i)
  else
    none

/-- Modelled from the spec: all-zero tables ("zero-initializing a fresh
table frame", spec section 4.1). -/
def Table1.zeroed : Table1 := ⟨fun _ => Entry.unused⟩

def Table2.zeroed : Table2 := ⟨fun _ => Entry.unused, fun _ => Table1.zeroed⟩

def Table3.zeroed : Table3 := ⟨fun _ => Entry.unused, fun _ => Table2.zeroed⟩

def Table4.zeroed : Table4 := ⟨fun _ => Entry.unused, fun _ => Table3.zeroed⟩

/-- Modelled from the spec: the `FrameAllocator` capability —
`allocate_frame()` yields an unused physical frame or reports none remain
(spec section 6).  The pool of frames still available is carried as a
list. -/
structure FrameAllocator where
  frames : List Frame
deriving DecidableEq, Repr

def FrameAllocator.allocate_frame (a : FrameAllocator) :
    Option (Frame × FrameAllocator) :=
  match a.frames with
  | [] => none
  | f :: rest => some (f, ⟨rest⟩)

/-- Modelled from the spec: `next_table_create(index, allocator)` returns
the level-below table, allocating a fresh zero-initialized table and
installing it with flags PRESENT|WRITABLE if it did not already exist;
physical-memory exhaustion is fatal (spec section 4.1).  The updated
parent table is returned alongside the child. -/
def PTable.next_table_create {α : Type} (t : PTable α) (i : Nat) (zero : α)
    (allocator : FrameAllocator) :
    Except Fault (PTable α × α × FrameAllocator) :=
  match t.next_table i with
  | some child => .ok (t, child, allocator)
  | none =>
    match allocator.allocate_frame with
    | none => .error .outOfMemory
    | some (frame, a) =>
      .ok ((t.setEntry i (Entry.set frame (PRESENT ||| WRITABLE))).setChild i zero,
           zero, a)

/-- Struct `ActivePageTable` (lines 60-62): owner of the P4 table. -/
structure ActivePageTable where
  p4 : Table4

/-- The `huge_page` closure of `translate_page` (lines 96-125): checks for
a 1 GiB entry at level 3 and a 2 MiB entry at level 2, asserting the huge
frame's alignment. -/
def hugePageLookup (p3opt : Option Table3) (page : Page) :
    Except Fault (Option Frame) :=
  match p3opt with
  | none => .ok none
  | some p3 =>
    let p3_entry := p3.entries page.p3_index
    let level2 : Except Fault (Option Frame) :=
      match p3.next_table page.p3_index with
      | some p2 =>
        let p2_entry := p2.entries page.p2_index
        match p2_entry.pointed_frame with
        | some start_frame =>
          if p2_entry.contains_flag HUGE_PAGE then
            if start_frame.number % ENTRY_COUNT = 0 then
              .ok (some ⟨start_frame.number + page.p1_index⟩)
            else
              .error .hugeMisaligned
          else
            .ok none
        | none => .ok none
      | none => .ok none
    match p3_entry.pointed_frame with
    | some start_frame =>
      if p3_entry.contains_flag HUGE_PAGE then
        if start_frame.number % (ENTRY_COUNT * ENTRY_COUNT) = 0 then
          .ok (some ⟨start_frame.number + page.p2_index * ENTRY_COUNT + page.p1_index⟩)
        else
          .error .hugeMisaligned
      else
        level2
    | none => level2

/-- Method `ActivePageTable::translate_page` (lines 89-133): walk levels 4 to 1;
when the walk fails, fall back to the huge-page lookup. -/
def ActivePageTable.translate_page (self : ActivePageTable) (page : Page) :
    Except Fault (Option Frame) :=
  let p3 := self.p4.next_table page.p4_index
  let walk :=
    ((p3.bind fun p3 => p3.next_table page.p3_index).bind
      fun p2 => p2.next_table page.p2_index).bind
      fun p1 => (p1.entries page.p1_index).pointed_frame
  match walk with
  | some frame => .ok (some frame)
  | none => hugePageLookup p3 page

/-- Method `ActivePageTable::translate` (lines 82-86): split the address into
page and offset, translate the page, and rebuild the physical address. -/
def ActivePageTable.translate (self : ActivePageTable)
    (virtual_address : Nat) : Except Fault (Option Nat) :=
  let offset := virtual_address % PAGE_SIZE
  match Page.containing_address virtual_address with
  | .error e => .error e
  | .ok page =>
    match self.translate_page page with
    | .error e => .error e
    | .ok r => .ok (r.map fun frame => frame.number * PAGE_SIZE + offset)

/-- Method `ActivePageTable::map_to` (lines 138-151): walk/create levels 4 to 2,
assert the level-1 entry is unused, and install `flags | PRESENT`.  The
in-place mutation through `&mut` references becomes writing the updated
child tables back into their parents. -/
def ActivePageTable.map_to (self : ActivePageTable) (page : Page)
    (frame : Frame) (flags : Nat) (allocator : FrameAllocator) :
    Except Fault (ActivePageTable × FrameAllocator) :=
  match self.p4.next_table_create page.p4_index Table3.zeroed allocator with
  | .error e => .error e
  | .ok (p4t, p3t, a1) =>
    match p3t.next_table_create page.p3_index Table2.zeroed a1 with
    | .error e => .error e
    | .ok (p3t, p2t, a2) =>
      match p2t.next_table_create page.p2_index Table1.zeroed a2 with
      | .error e => .error e
      | .ok (p2t, p1t, a3) =>
        if (p1t.entries page.p1_index).is_unused then
          let p1t := p1t.setEntry page.p1_index (Entry.set frame (flags ||| PRESENT))
          let p2t := p2t.setChild page.p2_index p1t
          let p3t := p3t.setChild page.p3_index p2t
          let p4t := p4t.setChild page.p4_index p3t
          .ok (⟨p4t⟩, a3)
        else
          .error .alreadyMapped

/-- Method `ActivePageTable::identity_map` (lines 166-171). -/
def ActivePageTable.identity_map (self : ActivePageTable) (frame : Frame)
    (flags : Nat) (allocator : FrameAllocator) :
    Except Fault (ActivePageTable × FrameAllocator) :=
  match Page.containing_address frame.start_address with
  | .error e => .error e
  | .ok page => self.map_to page frame flags allocator

/-- Method `ActivePageTable::unmap` (lines 176-197): assert the page translates,
walk the mutable chain (the `expect` fails on huge mappings), unwrap the
pointed frame, clear the level-1 entry.  The TLB flush is a hardware
effect outside the model; the commented-out `deallocate_frame` never
touches the allocator. -/
def ActivePageTable.unmap (self : ActivePageTable) (page : Page)
    (allocator : FrameAllocator) :
    Except Fault (ActivePageTable × FrameAllocator) :=
  match self.translate page.start_address with
  | .error e => .error e
  | .ok t =>
    if t.isSome then
      match self.p4.next_table page.p4_index with
      | none => .error .hugeUnmapUnsupported
      | some p3 =>
        match p3.next_table page.p3_index with
        | none => .error .hugeUnmapUnsupported
        | some p2 =>
          match p2.next_table page.p2_index with
          | none => .error .hugeUnmapUnsupported
          | some p1 =>
            match (p1.entries page.p1_index).pointed_frame with
            | none => .error .unwrapNone
            | some _frame =>
              let p1 := p1.setEntry page.p1_index Entry.unused
              let p2 := p2.setChild page.p2_index p1
              let p3 := p3.setChild page.p3_index p2
              let p4 := self.p4.setChild page.p4_index p3
              .ok (⟨p4⟩, allocator)
    else
      .error .notMapped

/-- Modelled from the spec: a brand-new, fully zeroed top-level table
(spec section 4.4 step 1). -/
def ActivePageTable.empty : ActivePageTable := ⟨Table4.zeroed⟩

/-! ## Helper lemmas -/

theorem lor_and_absorb (f b : Nat) : (f ||| b) &&& b = b := by
  apply Nat.eq_of_testBit_eq
  intro i
  rw [Nat.testBit_land, Nat.testBit_lor]
  cases h1 : f.testBit i <;> cases h2 : b.testBit i <;> rfl

theorem contains_flag_set_or (fr : Frame) (fl b : Nat) :
    (Entry.set fr (fl ||| b)).contains_flag b = true := by
  simp [Entry.set, Entry.contains_flag, lor_and_absorb]

theorem next_table_eq_some {α : Type} (t : PTable α) (i : Nat) (c : α) :
    t.next_table i = some c ↔
      (t.entries i).contains_flag PRESENT = true ∧
      (t.entries i).contains_flag HUGE_PAGE = false ∧ t.children i = c := by
  unfold PTable.next_table
  cases h1 : (t.entries i).contains_flag PRESENT <;>
    cases h2 : (t.entries i).contains_flag HUGE_PAGE <;> simp

theorem next_table_eq_none {α : Type} (t : PTable α) (i : Nat)
    (h : (t.entries i).contains_flag HUGE_PAGE = true) :
    t.next_table i = none := by
  unfold PTable.next_table
  rw [h]
  simp

theorem setChild_entries {α : Type} (t : PTable α) (i : Nat) (c : α) :
    (t.setChild i c).entries = t.entries := rfl

theorem next_table_setChild {α : Type} (t : PTable α) (i : Nat) (c x : α)
    (h : t.next_table i = some c) :
    (t.setChild i x).next_table i = some x := by
  rw [next_table_eq_some] at h ⊢
  exact ⟨h.1, h.2.1, by simp [PTable.setChild]⟩

theorem next_table_create_ok {α : Type} (t t' : PTable α) (i : Nat)
    (zero c : α) (a a' : FrameAllocator)
    (h : t.next_table_create i zero a = .ok (t', c, a')) :
    t'.next_table i = some c := by
  unfold PTable.next_table_create at h
  cases hnt : t.next_table i with
  | some child =>
    rw [hnt] at h
    simp only [Except.ok.injEq, Prod.mk.injEq] at h
    rw [← h.1, ← h.2.1]
    exact hnt
  | none =>
    rw [hnt] at h
    cases halloc : a.allocate_frame with
    | none => rw [halloc] at h; exact absurd h (by simp)
    | some p =>
      obtain ⟨fr, a2⟩ := p
      rw [halloc] at h
      simp only [Except.ok.injEq, Prod.mk.injEq] at h
      rw [← h.1, ← h.2.1]
      rw [next_table_eq_some]
      refine ⟨?_, ?_, by simp [PTable.setChild]⟩
      · simp [PTable.setChild, PTable.setEntry, Entry.set, Entry.contains_flag,
          PRESENT, WRITABLE]
      · simp [PTable.setChild, PTable.setEntry, Entry.set, Entry.contains_flag,
          PRESENT, WRITABLE, HUGE_PAGE]

theorem map_to_ok_walk (self self' : ActivePageTable) (page : Page)
    (frame : Frame) (flags : Nat) (allocator allocator' : FrameAllocator)
    (h : self.map_to page frame flags allocator = .ok (self', allocator')) :
    ∃ p3 p2 p1, self'.p4.next_table page.p4_index = some p3 ∧
      p3.next_table page.p3_index = some p2 ∧
      p2.next_table page.p2_index = some p1 ∧
      p1.entries page.p1_index = Entry.set frame (flags ||| PRESENT) := by
  unfold ActivePageTable.map_to at h
  split at h
  · exact absurd h (by simp)
  rename_i p4t p3t a1 h1
  split at h
  · exact absurd h (by simp)
  rename_i p3t' p2t a2 h2
  split at h
  · exact absurd h (by simp)
  rename_i p2t' p1t a3 h3
  split at h
  case isFalse => exact absurd h (by simp)
  case isTrue hu =>
    simp only [Except.ok.injEq, Prod.mk.injEq] at h
    obtain ⟨hself, -⟩ := h
    refine ⟨p3t'.setChild page.p3_index (p2t'.setChild page.p2_index
        (p1t.setEntry page.p1_index (Entry.set frame (flags ||| PRESENT)))),
      p2t'.setChild page.p2_index
        (p1t.setEntry page.p1_index (Entry.set frame (flags ||| PRESENT))),
      p1t.setEntry page.p1_index (Entry.set frame (flags ||| PRESENT)),
      ?_, ?_, ?_, ?_⟩
    · rw [← hself]
      exact next_table_setChild _ _ _ _ (next_table_create_ok _ _ _ _ _ _ _ h1)
    · exact next_table_setChild _ _ _ _ (next_table_create_ok _ _ _ _ _ _ _ h2)
    · exact next_table_setChild _ _ _ _ (next_table_create_ok _ _ _ _ _ _ _ h3)
    · simp [Table1.setEntry]

theorem translate_page_of_walk (self : ActivePageTable) (page : Page)
    (p3 : Table3) (p2 : Table2) (p1 : Table1) (f : Frame) (fl : Nat)
    (h4 : self.p4.next_table page.p4_index = some p3)
    (h3 : p3.next_table page.p3_index = some p2)
    (h2 : p2.next_table page.p2_index = some p1)
    (h1 : p1.entries page.p1_index = Entry.set f fl)
    (hp : (Entry.set f fl).contains_flag PRESENT = true) :
    self.translate_page page = .ok (some f) := by
  unfold ActivePageTable.translate_page
  simp only [h4, h3, h2, h1, Option.bind_some, Option.some_bind]
  unfold Entry.pointed_frame
  rw [hp]
  simp [Entry.set]

theorem translate_of_translate_page (self : ActivePageTable) (page : Page)
    (r : Option Frame) (k : Nat) (hk : k < PAGE_SIZE)
    (hcanon : page.start_address < 0x0000800000000000 ∨
      0xffff800000000000 ≤ page.start_address)
    (h : self.translate_page page = .ok r) :
    self.translate (page.start_address + k) =
      .ok (r.map fun f => f.number * PAGE_SIZE + k) := by
  have hstart : page.start_address = page.number * PAGE_SIZE := rfl
  have hc : page.number * PAGE_SIZE + k < 0x0000800000000000 ∨
      0xffff800000000000 ≤ page.number * PAGE_SIZE + k := by
    rw [hstart] at hcanon
    unfold PAGE_SIZE at hcanon hk ⊢
    omega
  have hca : Page.containing_address (page.start_address + k) = .ok page := by
    unfold Page.containing_address
    rw [hstart, if_pos hc]
    have hdiv : (page.number * PAGE_SIZE + k) / PAGE_SIZE = page.number := by
      unfold PAGE_SIZE at hk ⊢
      omega
    rw [hdiv]
  have hmod : (page.start_address + k) % PAGE_SIZE = k := by
    rw [hstart]
    unfold PAGE_SIZE at hk ⊢
    omega
  unfold ActivePageTable.translate
  simp only [hca, h, hmod]

theorem translate_ok_canonical (self : ActivePageTable) (a : Nat)
    (r : Option Nat) (h : self.translate a = .ok r) :
    a < 0x0000800000000000 ∨ 0xffff800000000000 ≤ a := by
  by_cases hc : a < 0x0000800000000000 ∨ 0xffff800000000000 ≤ a
  · exact hc
  · unfold ActivePageTable.translate Page.containing_address at h
    rw [if_neg hc] at h
    simp at h

theorem translate_noncanonical_error (self : ActivePageTable) (a : Nat)
    (h1 : 0x0000800000000000 ≤ a) (h2 : a < 0xffff800000000000) :
    self.translate a = .error .invalidAddress := by
  unfold ActivePageTable.translate Page.containing_address
  rw [if_neg (by omega)]

theorem containing_address_start (frame : Frame)
    (hcanon : frame.start_address < 0x0000800000000000 ∨
      0xffff800000000000 ≤ frame.start_address) :
    Page.containing_address frame.start_address = .ok ⟨frame.number⟩ := by
  unfold Page.containing_address
  rw [if_pos hcanon]
  have hdiv : frame.start_address / PAGE_SIZE = frame.number := by
    unfold Frame.start_address PAGE_SIZE
    omega
  rw [hdiv]

theorem hugePageLookup_none (p3 : Table3) (p2 : Table2) (page : Page)
    (h3 : p3.next_table page.p3_index = some p2)
    (hhuge2 : (p2.entries page.p2_index).contains_flag HUGE_PAGE = false) :
    hugePageLookup (some p3) page = .ok none := by
  have h3e := (next_table_eq_some _ _ _).mp h3
  have hpf3 : (p3.entries page.p3_index).pointed_frame =
      some ⟨(p3.entries page.p3_index).frameNumber⟩ := by
    unfold Entry.pointed_frame
    rw [h3e.1]
    simp
  unfold hugePageLookup
  simp only [hpf3, h3e.2.1, h3, Bool.false_eq_true, if_false]
  cases hpf2 : (p2.entries page.p2_index).pointed_frame with
  | none => simp [hpf2]
  | some sf => simp [hpf2, hhuge2]

theorem translate_page_not_present (self : ActivePageTable) (page : Page)
    (p3 : Table3) (p2 : Table2) (p1 : Table1)
    (h4 : self.p4.next_table page.p4_index = some p3)
    (h3 : p3.next_table page.p3_index = some p2)
    (h2 : p2.next_table page.p2_index = some p1)
    (hp : (p1.entries page.p1_index).contains_flag PRESENT = false) :
    self.translate_page page = .ok none := by
  have hpf : (p1.entries page.p1_index).pointed_frame = none := by
    unfold Entry.pointed_frame
    rw [hp]
    simp
  unfold ActivePageTable.translate_page
  simp only [h4, h3, h2, hpf, Option.some_bind, Option.bind_none]
  exact hugePageLookup_none p3 p2 page h3 ((next_table_eq_some _ _ _).mp h2).2.1

theorem next_table_zeroed4 (i : Nat) :
    (Table4.zeroed : Table4).next_table i = none := by
  simp [Table4.zeroed, PTable.next_table, Entry.unused, Entry.contains_flag,
    PRESENT]

theorem empty_translate_page_none (page : Page) :
    ActivePageTable.empty.translate_page page = .ok none := by
  unfold ActivePageTable.translate_page
  dsimp only [ActivePageTable.empty]
  simp only [next_table_zeroed4, Option.none_bind]
  rfl

/-! ## Concrete states used by the witnesses -/

def allocW : FrameAllocator := ⟨[⟨100⟩, ⟨101⟩, ⟨102⟩, ⟨103⟩]⟩

def pageW : Page := ⟨11010048⟩

def frameW : Frame := ⟨7⟩

def stEmpty : ActivePageTable := ActivePageTable.empty

def mapResW : Except Fault (ActivePageTable × FrameAllocator) :=
  stEmpty.map_to pageW frameW 0 allocW

def stMapped : ActivePageTable :=
  match mapResW with
  | .ok (s, _) => s
  | .error _ => stEmpty

def allocMapped : FrameAllocator :=
  match mapResW with
  | .ok (_, a) => a
  | .error _ => allocW

def p3W : Table3 := stMapped.p4.children 0

def p2W : Table2 := p3W.children 42

def p1W : Table1 := p2W.children 0

def allocU : FrameAllocator := ⟨[⟨200⟩]⟩

def unmapResW : Except Fault (ActivePageTable × FrameAllocator) :=
  stMapped.unmap pageW allocU

def stUnmapped : ActivePageTable :=
  match unmapResW with
  | .ok (s, _) => s
  | .error _ => stEmpty

def allocUnmapped : FrameAllocator :=
  match unmapResW with
  | .ok (_, a) => a
  | .error _ => allocU

def hugeTable3 : Table3 := (Table3.zeroed).setEntry 1 ⟨0, PRESENT ||| HUGE_PAGE⟩

def stHuge : ActivePageTable :=
  ⟨((Table4.zeroed).setEntry 0 ⟨50, PRESENT⟩).setChild 0 hugeTable3⟩

def pageHuge : Page := ⟨263171⟩

def hugeTable2 : Table2 := (Table2.zeroed).setEntry 2 ⟨512, PRESENT ||| HUGE_PAGE⟩

def table3ForHuge2 : Table3 :=
  ((Table3.zeroed).setEntry 1 ⟨60, PRESENT⟩).setChild 1 hugeTable2

def stHuge2 : ActivePageTable :=
  ⟨((Table4.zeroed).setEntry 0 ⟨50, PRESENT⟩).setChild 0 table3ForHuge2⟩

def frameI : Frame := ⟨11010048⟩

def idResW : Except Fault (ActivePageTable × FrameAllocator) :=
  stEmpty.identity_map frameI 0 allocW

def stIdent : ActivePageTable :=
  match idResW with
  | .ok (s, _) => s
  | .error _ => stEmpty

def allocIdent : FrameAllocator :=
  match idResW with
  | .ok (_, a) => a
  | .error _ => allocW

/-! ## Claim theorems -/

/-- C3: For every virtual address `a` in the canonical range (`a < 2^47` or
`a ≥ 0xffff_8000_0000_0000`), `Page::containing_address(a).start_address()`
equals `a` rounded down to the nearest multiple of 4096. -/
theorem containing_address_roundtrip (a : Nat)
    (h : a < 0x0000800000000000 ∨ 0xffff800000000000 ≤ a) :
    ∃ p : Page, Page.containing_address a = .ok p ∧
      p.start_address = a / 4096 * 4096 := by
  refine ⟨⟨a / PAGE_SIZE⟩, ?_, ?_⟩
  · unfold Page.containing_address
    rw [if_pos h]
  · rfl

theorem containing_address_roundtrip_witness :
    (5000 < 0x0000800000000000 ∨ 0xffff800000000000 ≤ 5000) ∧
    ∃ p : Page, Page.containing_address 5000 = .ok p ∧
      p.start_address = 5000 / 4096 * 4096 :=
  ⟨by decide, containing_address_roundtrip 5000 (by decide)⟩

/-- C7: For every address `a` in the non-canonical gap
(`2^47 ≤ a < 0xffff_8000_0000_0000`), `Page::containing_address(a)` signals
the invalid-address condition instead of constructing a Page. -/
theorem containing_address_noncanonical (a : Nat)
    (h1 : 0x0000800000000000 ≤ a) (h2 : a < 0xffff800000000000) :
    Page.containing_address a = .error .invalidAddress := by
  unfold Page.containing_address
  rw [if_neg (by omega)]

theorem containing_address_noncanonical_witness :
    0x0000800000000000 ≤ 0x0000800000000000 ∧
    0x0000800000000000 < 0xffff800000000000 ∧
    Page.containing_address 0x0000800000000000 = .error .invalidAddress :=
  ⟨by decide, by decide,
    containing_address_noncanonical 0x0000800000000000 (by decide) (by decide)⟩

/-- C9: `translate` invokes `Page::containing_address` before any table
walk, so for every non-canonical virtual address it is fatal via the
invalid-address assertion rather than returning None; an `ok` result can
only arise for a canonical address. -/
theorem translate_noncanonical (self : ActivePageTable) (a : Nat) :
    (0x0000800000000000 ≤ a → a < 0xffff800000000000 →
      self.translate a = .error .invalidAddress) ∧
    (∀ r : Option Nat, self.translate a = .ok r →
      a < 0x0000800000000000 ∨ 0xffff800000000000 ≤ a) := by
  constructor
  · intro h1 h2
    exact translate_noncanonical_error self a h1 h2
  · intro r h
    exact translate_ok_canonical self a r h

theorem translate_noncanonical_witness :
    stEmpty.translate 0x0000800000000000 = .error .invalidAddress ∧
    (0 < 0x0000800000000000 ∨ 0xffff800000000000 ≤ 0) :=
  ⟨(translate_noncanonical stEmpty 0x0000800000000000).1 (by decide) (by decide),
   (translate_noncanonical stEmpty 0).2 none (by rfl)⟩

/-- C1: For every canonical page, frame, and flag set, after
`map_to(page, frame, flags, allocator)` succeeds on a page whose level-1
entry was previously unused, `translate(page.start_address() + k)` returns
`frame.start_address() + k` for every offset `0 ≤ k < 4096`; the installed
level-1 entry carries `flags | PRESENT`. -/
theorem map_to_translate_offsets (self self' : ActivePageTable)
    (page : Page) (frame : Frame) (flags : Nat)
    (allocator allocator' : FrameAllocator) (k : Nat)
    (hcanon : page.start_address < 0x0000800000000000 ∨
      0xffff800000000000 ≤ page.start_address)
    (hmap : self.map_to page frame flags allocator = .ok (self', allocator'))
    (hk : k < 4096) :
    self'.translate (page.start_address + k) =
      .ok (some (frame.start_address + k)) ∧
    ∃ p3 p2 p1, self'.p4.next_table page.p4_index = some p3 ∧
      p3.next_table page.p3_index = some p2 ∧
      p2.next_table page.p2_index = some p1 ∧
      p1.entries page.p1_index = Entry.set frame (flags ||| PRESENT) := by
  obtain ⟨p3, p2, p1, h4, h3, h2, h1⟩ := map_to_ok_walk _ _ _ _ _ _ _ hmap
  have htp : self'.translate_page page = .ok (some frame) :=
    translate_page_of_walk _ _ _ _ _ _ _ h4 h3 h2 h1 (contains_flag_set_or _ _ _)
  refine ⟨?_, p3, p2, p1, h4, h3, h2, h1⟩
  have := translate_of_translate_page self' page (some frame) k
    (by unfold PAGE_SIZE; omega) hcanon htp
  simpa [Frame.start_address] using this

theorem map_to_translate_offsets_witness :
    (pageW.start_address < 0x0000800000000000 ∨
      0xffff800000000000 ≤ pageW.start_address) ∧
    stEmpty.map_to pageW frameW 0 allocW = .ok (stMapped, allocMapped) ∧
    stMapped.translate (pageW.start_address + 5) =
      .ok (some (frameW.start_address + 5)) ∧
    ∃ p3 p2 p1, stMapped.p4.next_table pageW.p4_index = some p3 ∧
      p3.next_table pageW.p3_index = some p2 ∧
      p2.next_table pageW.p2_index = some p1 ∧
      p1.entries pageW.p1_index = Entry.set frameW (0 ||| PRESENT) :=
  ⟨by decide, by rfl,
    map_to_translate_offsets stEmpty stMapped pageW frameW 0 allocW allocMapped 5
      (by decide) (by rfl) (by decide)⟩

/-- C4: For every page whose level-1 entry is already used, `map_to`
signals the already-mapped invariant violation and does not overwrite the
existing entry (it returns the `alreadyMapped` fault without producing a
new table state). -/
theorem map_to_already_mapped (self : ActivePageTable) (page : Page)
    (frame : Frame) (flags : Nat) (allocator : FrameAllocator)
    (p3 : Table3) (p2 : Table2) (p1 : Table1)
    (h4 : self.p4.next_table page.p4_index = some p3)
    (h3 : p3.next_table page.p3_index = some p2)
    (h2 : p2.next_table page.p2_index = some p1)
    (hused : (p1.entries page.p1_index).is_unused = false) :
    self.map_to page frame flags allocator = .error .alreadyMapped := by
  have c4 : self.p4.next_table_create page.p4_index Table3.zeroed allocator =
      .ok (self.p4, p3, allocator) := by
    unfold PTable.next_table_create
    rw [h4]
  have c3 : p3.next_table_create page.p3_index Table2.zeroed allocator =
      .ok (p3, p2, allocator) := by
    unfold PTable.next_table_create
    rw [h3]
  have c2 : p2.next_table_create page.p2_index Table1.zeroed allocator =
      .ok (p2, p1, allocator) := by
    unfold PTable.next_table_create
    rw [h2]
  unfold ActivePageTable.map_to
  simp [c4, c3, c2, hused]

theorem map_to_already_mapped_witness :
    stMapped.p4.next_table pageW.p4_index = some p3W ∧
    (p1W.entries pageW.p1_index).is_unused = false ∧
    stMapped.map_to pageW frameW 0 allocW = .error .alreadyMapped :=
  ⟨by rfl, by decide,
    map_to_already_mapped stMapped pageW frameW 0 allocW p3W p2W p1W
      (by rfl) (by rfl) (by rfl) (by decide)⟩

/-- C5: For every page currently mapped through a level-1 entry, after
the call `unmap(page, allocator)` returns, `translate(page.start_address())`
returns absent (None); and since `unmap` asserts beforehand that the page
is mapped, unmapping an unmapped page is a fatal precondition violation. -/
theorem unmap_translate_absent (self self' : ActivePageTable) (page : Page)
    (allocator allocator' : FrameAllocator) :
    (self.unmap page allocator = .ok (self', allocator') →
      self'.translate page.start_address = .ok none) ∧
    (self.translate page.start_address = .ok none →
      self.unmap page allocator = .error .notMapped) := by
  constructor
  · intro h
    unfold ActivePageTable.unmap at h
    split at h
    · exact absurd h (by simp)
    rename_i t ht
    split at h
    case isFalse => exact absurd h (by simp)
    case isTrue hsome =>
      split at h
      · exact absurd h (by simp)
      rename_i p3 h4
      split at h
      · exact absurd h (by simp)
      rename_i p2 h3
      split at h
      · exact absurd h (by simp)
      rename_i p1 h2
      split at h
      · exact absurd h (by simp)
      rename_i fr hpf
      simp only [Except.ok.injEq, Prod.mk.injEq] at h
      obtain ⟨hself, -⟩ := h
      have hcanon := translate_ok_canonical self page.start_address t ht
      have hw4 := next_table_setChild self.p4 page.p4_index p3
        (p3.setChild page.p3_index (p2.setChild page.p2_index
          (p1.setEntry page.p1_index Entry.unused))) h4
      have hw3 := next_table_setChild p3 page.p3_index p2
        (p2.setChild page.p2_index (p1.setEntry page.p1_index Entry.unused)) h3
      have hw2 := next_table_setChild p2 page.p2_index p1
        (p1.setEntry page.p1_index Entry.unused) h2
      have hentry : (p1.setEntry page.p1_index Entry.unused).entries
          page.p1_index = Entry.unused := by
        simp [Table1.setEntry]
      have hpres : ((p1.setEntry page.p1_index Entry.unused).entries
          page.p1_index).contains_flag PRESENT = false := by
        rw [hentry]
        decide
      have htp : self'.translate_page page = .ok none := by
        rw [← hself]
        exact translate_page_not_present _ page _ _ _ hw4 hw3 hw2 hpres
      have := translate_of_translate_page self' page none 0
        (by unfold PAGE_SIZE; omega) hcanon htp
      simpa using this
  · intro h
    unfold ActivePageTable.unmap
    simp [h]

theorem unmap_translate_absent_witness :
    stUnmapped.translate pageW.start_address = .ok none ∧
    stEmpty.unmap pageW allocU = .error .notMapped :=
  ⟨(unmap_translate_absent stMapped stUnmapped pageW allocU allocUnmapped).1
      (by rfl),
   (unmap_translate_absent stEmpty stEmpty pageW allocU allocU).2 (by rfl)⟩

/-- C6: `identity_map(frame, flags, allocator)` maps exactly the page whose
number equals the frame's number to that same frame: it delegates to
`map_to` on that page, after a successful call translating
`frame.start_address()` returns `frame.start_address()` unchanged, and on
the brand-new (empty) table, translating that address returns absent. -/
theorem identity_map_roundtrip (self self' : ActivePageTable)
    (frame : Frame) (flags : Nat) (allocator allocator' : FrameAllocator) :
    (self.identity_map frame flags allocator = .ok (self', allocator') →
      self'.translate frame.start_address = .ok (some frame.start_address)) ∧
    (frame.start_address < 0x0000800000000000 ∨
        0xffff800000000000 ≤ frame.start_address →
      self.identity_map frame flags allocator =
        self.map_to ⟨frame.number⟩ frame flags allocator) ∧
    (frame.start_address < 0x0000800000000000 ∨
        0xffff800000000000 ≤ frame.start_address →
      ActivePageTable.empty.translate frame.start_address = .ok none) := by
  refine ⟨?_, ?_, ?_⟩
  · intro h
    unfold ActivePageTable.identity_map at h
    split at h
    · exact absurd h (by simp)
    rename_i pg hpg
    have hcanon : frame.start_address < 0x0000800000000000 ∨
        0xffff800000000000 ≤ frame.start_address := by
      by_cases hc : frame.start_address < 0x0000800000000000 ∨
          0xffff800000000000 ≤ frame.start_address
      · exact hc
      · unfold Page.containing_address at hpg
        rw [if_neg hc] at hpg
        exact absurd hpg (by simp)
    have hpg' : pg = ⟨frame.number⟩ := by
      have := containing_address_start frame hcanon
      rw [hpg] at this
      simpa using this
    subst hpg'
    obtain ⟨p3, p2, p1, h4, h3, h2, h1⟩ := map_to_ok_walk _ _ _ _ _ _ _ h
    have htp : self'.translate_page ⟨frame.number⟩ = .ok (some frame) :=
      translate_page_of_walk _ _ _ _ _ _ _ h4 h3 h2 h1 (contains_flag_set_or _ _ _)
    have := translate_of_translate_page self' ⟨frame.number⟩ (some frame) 0
      (by unfold PAGE_SIZE; omega) hcanon htp
    simpa [Frame.start_address, Page.start_address] using this
  · intro hcanon
    unfold ActivePageTable.identity_map
    simp [containing_address_start frame hcanon]
  · intro hcanon
    have hca : Page.containing_address frame.start_address =
        .ok ⟨frame.number⟩ := containing_address_start frame hcanon
    unfold ActivePageTable.translate
    simp only [hca, empty_translate_page_none]
    rfl

theorem identity_map_roundtrip_witness :
    stIdent.translate frameI.start_address = .ok (some frameI.start_address) ∧
    stEmpty.identity_map frameI 0 allocW =
      stEmpty.map_to ⟨frameI.number⟩ frameI 0 allocW ∧
    ActivePageTable.empty.translate frameI.start_address = .ok none :=
  ⟨(identity_map_roundtrip stEmpty stIdent frameI 0 allocW allocIdent).1 (by rfl),
   (identity_map_roundtrip stEmpty stIdent frameI 0 allocW allocIdent).2.1
     (by decide),
   (identity_map_roundtrip stEmpty stIdent frameI 0 allocW allocIdent).2.2
     (by decide)⟩

/-- C8: `unmap(page, allocator)` never returns the vacated frame to the
allocator: whenever `unmap` returns successfully, the allocator's state is
unchanged. -/
theorem unmap_allocator_unchanged (self self' : ActivePageTable)
    (page : Page) (allocator allocator' : FrameAllocator)
    (h : self.unmap page allocator = .ok (self', allocator')) :
    allocator' = allocator := by
  unfold ActivePageTable.unmap at h
  split at h
  · exact absurd h (by simp)
  split at h
  case isFalse => exact absurd h (by simp)
  case isTrue =>
    split at h
    · exact absurd h (by simp)
    split at h
    · exact absurd h (by simp)
    split at h
    · exact absurd h (by simp)
    split at h
    · exact absurd h (by simp)
    simp only [Except.ok.injEq, Prod.mk.injEq] at h
    exact h.2.symm

theorem unmap_allocator_unchanged_witness :
    stMapped.unmap pageW allocU = .ok (stUnmapped, allocUnmapped) ∧
    allocUnmapped = allocU :=
  ⟨by rfl,
    unmap_allocator_unchanged stMapped stUnmapped pageW allocU allocUnmapped
      (by rfl)⟩

/-- C10: For every page whose translation succeeds (so it is mapped) while
the walk to a level-1 table fails (translation went through a huge-page
entry at level 3 or 2), `unmap` passes its page-is-mapped assertion but
then fails fatally on the `expect` for huge pages, without clearing any
entry. -/
theorem unmap_huge_unsupported (self : ActivePageTable) (page : Page)
    (allocator : FrameAllocator) (pa : Nat)
    (htrans : self.translate page.start_address = .ok (some pa))
    (hchain : ((self.p4.next_table page.p4_index).bind
        (fun p3 => p3.next_table page.p3_index)).bind
        (fun p2 => p2.next_table page.p2_index) = none) :
    self.unmap page allocator = .error .hugeUnmapUnsupported := by
  unfold ActivePageTable.unmap
  cases h4 : self.p4.next_table page.p4_index with
  | none => simp [htrans, h4]
  | some p3 =>
    cases h3 : p3.next_table page.p3_index with
    | none => simp [htrans, h4, h3]
    | some p2 =>
      cases h2 : p2.next_table page.p2_index with
      | none => simp [htrans, h4, h3, h2]
      | some p1 =>
        exfalso
        rw [h4] at hchain
        simp only [Option.some_bind] at hchain
        rw [h3] at hchain
        simp only [Option.some_bind] at hchain
        rw [h2] at hchain
        exact absurd hchain (by simp)

theorem unmap_huge_unsupported_witness :
    stHuge.translate pageHuge.start_address = .ok (some 4206592) ∧
    ((stHuge.p4.next_table pageHuge.p4_index).bind
        (fun p3 => p3.next_table pageHuge.p3_index)).bind
        (fun p2 => p2.next_table pageHuge.p2_index) = none ∧
    stHuge.unmap pageHuge allocU = .error .hugeUnmapUnsupported :=
  ⟨by rfl, by rfl,
    unmap_huge_unsupported stHuge pageHuge allocU 4206592 (by rfl) (by rfl)⟩

/-- C2: During translation, a present level-3 entry with the huge-page
flag set short-circuits the walk: the result is the frame numbered
`base + p2_index*512 + p1_index` if the huge frame is 512*512-aligned, and
the fatal alignment assertion otherwise; a present level-2 entry with the
huge-page flag set yields `base + p1_index` if 512-aligned, and the fatal
alignment assertion otherwise. -/
theorem translate_page_huge_short_circuit (self : ActivePageTable)
    (page : Page) :
    (∀ (p3 : Table3) (sf : Frame),
      self.p4.next_table page.p4_index = some p3 →
      (p3.entries page.p3_index).pointed_frame = some sf →
      (p3.entries page.p3_index).contains_flag HUGE_PAGE = true →
      self.translate_page page =
        (if sf.number % (ENTRY_COUNT * ENTRY_COUNT) = 0 then
          .ok (some ⟨sf.number + page.p2_index * ENTRY_COUNT + page.p1_index⟩)
        else .error .hugeMisaligned)) ∧
    (∀ (p3 : Table3) (p2 : Table2) (sf : Frame),
      self.p4.next_table page.p4_index = some p3 →
      p3.next_table page.p3_index = some p2 →
      (p2.entries page.p2_index).pointed_frame = some sf →
      (p2.entries page.p2_index).contains_flag HUGE_PAGE = true →
      self.translate_page page =
        (if sf.number % ENTRY_COUNT = 0 then
          .ok (some ⟨sf.number + page.p1_index⟩)
        else .error .hugeMisaligned)) := by
  constructor
  · intro p3 sf h4 hpf hhuge
    have h3n : p3.next_table page.p3_index = none :=
      next_table_eq_none _ _ hhuge
    unfold ActivePageTable.translate_page
    simp only [h4, h3n, Option.some_bind, Option.none_bind]
    unfold hugePageLookup
    simp only [hpf, hhuge, if_true]
  · intro p3 p2 sf h4 h3 hpf2 hhuge2
    have h2n : p2.next_table page.p2_index = none :=
      next_table_eq_none _ _ hhuge2
    have h3e := (next_table_eq_some _ _ _).mp h3
    have hpf3 : (p3.entries page.p3_index).pointed_frame =
        some ⟨(p3.entries page.p3_index).frameNumber⟩ := by
      unfold Entry.pointed_frame
      rw [h3e.1]
      simp
    unfold ActivePageTable.translate_page
    simp only [h4, h3, h2n, Option.some_bind, Option.none_bind]
    unfold hugePageLookup
    simp only [hpf3, h3e.2.1, h3, hpf2, hhuge2, if_true, Bool.false_eq_true,
      if_false]

theorem translate_page_huge_short_circuit_witness :
    stHuge.translate_page pageHuge =
      (if (0 : Nat) % (ENTRY_COUNT * ENTRY_COUNT) = 0 then
        .ok (some ⟨0 + pageHuge.p2_index * ENTRY_COUNT + pageHuge.p1_index⟩)
      else .error .hugeMisaligned) ∧
    stHuge2.translate_page pageHuge =
      (if (512 : Nat) % ENTRY_COUNT = 0 then
        .ok (some ⟨512 + pageHuge.p1_index⟩)
      else .error .hugeMisaligned) :=
  ⟨(translate_page_huge_short_circuit stHuge pageHuge).1 hugeTable3 ⟨0⟩
      (by rfl) (by rfl) (by rfl),
   (translate_page_huge_short_circuit stHuge2 pageHuge).2 table3ForHuge2
      hugeTable2 ⟨512⟩ (by rfl) (by rfl) (by rfl) (by rfl)⟩

end FlamingOS
